import Mathlib

/-!
Shallow embedding of the `qiwi` crate (files `src/qiwi/src/transport.rs`,
`src/qiwi/src/models.rs`, `src/qiwi/src/lib.rs`): a typed client for the
QIWI wallet REST API.  JSON values are modelled by an inductive type; the
serde-driven decoding of the untagged response envelope `Rsp<T>`, the
cursor-based pagination loop of `payment_history`, and the request bodies
built by `commission_quote` and `transfer` are translated into executable
Lean functions, and the spec's claims about them are stated and proved
below the definitions.
-/

/-- JSON values (model of `serde_json::Value`).  Numbers are modelled as
rationals, which covers every decimal literal the crate serializes
(`BigDecimal` amounts, integers). Objects are ordered association lists,
reflecting the order in which `serde_json::json!` bodies are built. -/
inductive Json where
  | null
  | bool (b : Bool)
  | num (q : Rat)
  | str (s : String)
  | arr (xs : List Json)
  | obj (fields : List (String × Json))

/-- First-match field lookup in a JSON object's field list (model of how
serde finds a struct field in a map). -/
def lookupField : List (String × Json) → String → Option Json
  | [], _ => none
  | (k, v) :: rest, key => if k = key then some v else lookupField rest key

/-- Field access on a JSON value: `some` only for objects having the key. -/
def Json.field : Json → String → Option Json
  | .obj fs, k => lookupField fs k
  | _, _ => none

/-- Whether the JSON value is an object containing the given key (of any type). -/
def Json.hasField (j : Json) (k : String) : Bool :=
  (j.field k).isSome

/-- Field access along a path of keys. -/
def Json.fieldPath : Json → List String → Option Json
  | j, [] => some j
  | j, k :: ks =>
    match j.field k with
    | some v => Json.fieldPath v ks
    | none => none

/-- The string value of an `errorCode` field, when the value is an object
that has one; this is exactly what the `Error { errorCode: String }`
variant of `Rsp<T>` (transport.rs lines 16-24) accepts: serde's untagged
struct-variant deserializer requires an object with an `errorCode` field
holding a string, and ignores all other fields. -/
def errorCodeStr (j : Json) : Option String :=
  match j.field "errorCode" with
  | some (.str s) => some s
  | _ => none

/-- The response envelope `Rsp<T>` from transport.rs: an untagged union of
the error shape `{errorCode: string}` and a successful payload `T`. -/
inductive Rsp (T : Type) where
  | Error (error : String)
  | OK (v : T)

/-- Decoding `Rsp<T>` from JSON (serde `untagged` semantics): variants are
tried in declaration order, so the `Error` shape is attempted first and
wins whenever the value is an object carrying a string `errorCode` field;
only otherwise is the payload decoder for `T` consulted.  `none` models a
serde "data did not match any variant" error. -/
def decodeRsp {T : Type} (decodeT : Json → Option T) (j : Json) : Option (Rsp T) :=
  match errorCodeStr j with
  | some e => some (.Error e)
  | none => (decodeT j).map Rsp.OK

/-- Error taxonomy of the client (spec section 7; in Rust all three are
`anyhow::Error` values produced at distinct sites, which this inductive
keeps apart by provenance). -/
inductive ClientError where
  | transportError (msg : String)
  | decodeError
  | domainError (msg : String)

/-- `Rsp::into_result` (transport.rs lines 26-33): the error variant
becomes a domain failure with message `qiwi error: {errorCode}`, the
success variant passes its payload through unchanged. -/
def Rsp.into_result {T : Type} : Rsp T → Except ClientError T
  | .Error e => .error (.domainError ("qiwi error: " ++ e))
  | .OK v => .ok v

/-- An arbitrary payload decoder that accepts every JSON value, including
ones with extra fields; used to witness that the error variant still wins. -/
def decodeAnythingAsZero : Json → Option Nat := fun _ => some 0

/-- Phone numbers (model of `phonenumber::PhoneNumber`): the country
calling code and the national significant number, both plain numbers. -/
structure PhoneNumber where
  code : Nat
  national : Nat

/-- Currencies (model of `penny::Currency`): the numeric ISO 4217 code
rendered as a string, which is what `info().number()` yields. -/
structure Currency where
  number : String

/-- The Russian rouble, `penny::Currency::RUB`, ISO numeric code 643. -/
def Currency.RUB : Currency := ⟨"643"⟩

/-- Arbitrary-precision decimals (model of `bigdecimal::BigDecimal`),
carried as exact rationals; the crate never computes with them, it only
moves them between JSON and DTOs. -/
structure BigDecimal where
  val : Rat

/-- `QiwiUser` display (models.rs lines 9-11): the country calling code
immediately followed by the national number, via the derived
`#[display(fmt = "{}{}", self.0.code().value(), self.0.national())]`. -/
def qiwiUserString (p : PhoneNumber) : String :=
  toString p.code ++ toString p.national

/-- `QiwiUser`'s `Serialize` impl (models.rs lines 13-20): serializes as
the display string. -/
def serializeQiwiUser (p : PhoneNumber) : Json :=
  .str (qiwiUserString p)

/-- `QiwiCurrency` display (models.rs lines 22-24): the numeric ISO code
string. -/
def qiwiCurrencyString (c : Currency) : String :=
  c.number

/-- `QiwiCurrency`'s `Serialize` impl (models.rs lines 26-33): serializes
as the display string. -/
def serializeQiwiCurrency (c : Currency) : Json :=
  .str (qiwiCurrencyString c)

/-- HTTP methods used by the client. -/
inductive HttpMethod where
  | GET
  | POST

/-- One request handed to `Transport::call` (transport.rs lines 35-43):
endpoint path, method, query parameters and an optional JSON body.  The
parameter map is kept as the list of insertions. -/
structure ApiRequest where
  endpoint : String
  method : HttpMethod
  params : List (String × String)
  body : Option Json

/-- `PaymentHistoryData` (models.rs lines 181-187): one history page — the
entries plus the optional cursor pair.  The entry payload is opaque to the
pagination loop (it only forwards entries), so the page is parametrized by
the entry type. -/
structure PaymentHistoryData (Entry : Type) where
  data : List Entry
  next_txn_id : Option Nat
  next_txn_date : Option String

/-- The page request built at the top of each `payment_history` loop
iteration (lib.rs lines 58-64): endpoint
`payment-history/v2/persons/{user}/payments`, `rows=50`, and, when a
cursor is pending, `nextTxnDate`/`nextTxnId` from the previous page. -/
def mkHistoryRequest (user : String) (cursor : Option (String × Nat)) : ApiRequest :=
  { endpoint := "payment-history/v2/persons/" ++ user ++ "/payments"
    method := .GET
    params := ("rows", toString 50) ::
      (match cursor with
       | some c => [("nextTxnDate", c.1), ("nextTxnId", toString c.2)]
       | none => [])
    body := none }

/-- Cursor extraction from a received page (lib.rs lines 71-75): the loop
advances only when `next_txn_date` and `next_txn_id` are both present. -/
def nextCursor {α : Type} (page : PaymentHistoryData α) : Option (String × Nat) :=
  match page.next_txn_date with
  | some d =>
    match page.next_txn_id with
    | some i => some (d, i)
    | none => none
  | none => none

/-- The `payment_history` pagination loop (lib.rs lines 55-85) run against
a transport that answers the n-th request with the n-th page of the given
list: returns the trace of issued page requests and the entries yielded,
in order.  Each iteration issues one request, reads one page, yields its
entries after recording the cursor, and continues exactly when the page
carried both cursor fields.  An exhausted page list models a transport
that never answers the pending request, so nothing further is recorded. -/
def historyRun {α : Type} (user : String) :
    Option (String × Nat) → List (PaymentHistoryData α) → List ApiRequest × List α
  | _, [] => ([], [])
  | cursor, page :: rest =>
    let req := mkHistoryRequest user cursor
    match nextCursor page with
    | some c =>
      let r := historyRun user (some c) rest
      (req :: r.1, page.data ++ r.2)
    | none => ([req], page.data)

/-- `CommissionRange` (models.rs lines 205-213). -/
structure CommissionRange where
  bound : BigDecimal
  rate : BigDecimal
  min : BigDecimal
  max : BigDecimal
  fixed : BigDecimal

/-- `CommissionLimit` (models.rs lines 215-221); `currency` is a `u16`. -/
structure CommissionLimit where
  currency : Nat
  min : BigDecimal
  max : BigDecimal

/-- `CommissionInfo` (models.rs lines 223-228). -/
structure CommissionInfo where
  ranges : List CommissionRange
  limits : List CommissionLimit

/-- `CommissionInfoWrapper` (models.rs lines 230-234). -/
structure CommissionInfoWrapper where
  commission : CommissionInfo

/-- `CommissionQuoteData` (models.rs lines 236-240). -/
structure CommissionQuoteData where
  amount : BigDecimal

/-- `CommissionQuote` (models.rs lines 242-246). -/
structure CommissionQuote where
  qw_commission : CommissionQuoteData

/-- Decoder for `BigDecimal` fields: accepts a JSON number. -/
def decodeBigDecimal : Json → Option BigDecimal
  | .num q => some ⟨q⟩
  | _ => none

/-- Decoder for `u16` fields: a non-negative integer below 2^16. -/
def decodeU16 : Json → Option Nat
  | .num q =>
    if q.den = 1 ∧ 0 ≤ q.num ∧ q.num < 65536 then some q.num.toNat else none
  | _ => none

/-- Decode a required struct field with a given element decoder. -/
def decodeField {α : Type} (fs : List (String × Json)) (k : String)
    (d : Json → Option α) : Option α :=
  match lookupField fs k with
  | some v => d v
  | none => none

/-- Decode each element of a JSON array. -/
def decodeListWith {α : Type} (d : Json → Option α) : List Json → Option (List α)
  | [] => some []
  | x :: xs => do
    let v ← d x
    let vs ← decodeListWith d xs
    pure (v :: vs)

/-- Decoder for `CommissionRange`. -/
def decodeCommissionRange : Json → Option CommissionRange
  | .obj fs => do
    let bound ← decodeField fs "bound" decodeBigDecimal
    let rate ← decodeField fs "rate" decodeBigDecimal
    let mn ← decodeField fs "min" decodeBigDecimal
    let mx ← decodeField fs "max" decodeBigDecimal
    let fixed ← decodeField fs "fixed" decodeBigDecimal
    pure ⟨bound, rate, mn, mx, fixed⟩
  | _ => none

/-- Decoder for `CommissionLimit`. -/
def decodeCommissionLimit : Json → Option CommissionLimit
  | .obj fs => do
    let currency ← decodeField fs "currency" decodeU16
    let mn ← decodeField fs "min" decodeBigDecimal
    let mx ← decodeField fs "max" decodeBigDecimal
    pure ⟨currency, mn, mx⟩
  | _ => none

/-- Decoder for a JSON array field. -/
def decodeArray {α : Type} (d : Json → Option α) : Json → Option (List α)
  | .arr xs => decodeListWith d xs
  | _ => none

/-- Decoder for `CommissionInfo`. -/
def decodeCommissionInfo : Json → Option CommissionInfo
  | .obj fs => do
    let ranges ← decodeField fs "ranges" (decodeArray decodeCommissionRange)
    let limits ← decodeField fs "limits" (decodeArray decodeCommissionLimit)
    pure ⟨ranges, limits⟩
  | _ => none

/-- Decoder for `CommissionInfoWrapper`. -/
def decodeCommissionInfoWrapper : Json → Option CommissionInfoWrapper
  | .obj fs => do
    let c ← decodeField fs "commission" decodeCommissionInfo
    pure ⟨c⟩
  | _ => none

/-- `Client::commission_info` (lib.rs lines 88-96) applied to the JSON
value the transport returned: decode the envelope (a serde failure is a
decode error), unwrap it, and project the `commission` field. -/
def commission_info_result (j : Json) : Except ClientError CommissionInfo :=
  match decodeRsp decodeCommissionInfoWrapper j with
  | none => .error .decodeError
  | some r => r.into_result.map (·.commission)

/-- The endpoint of `Client::commission_info` (lib.rs line 89). -/
def commissionInfoEndpoint (provider : Nat) : String :=
  "sinap/providers/" ++ toString provider ++ "/form"

/-- The endpoint of `Client::commission_quote` (lib.rs line 104). -/
def commissionQuoteEndpoint (provider : Nat) : String :=
  "sinap/providers/" ++ toString provider ++ "/onlineCommission"

/-- The JSON body POSTed by `Client::commission_quote` (lib.rs lines
112-124): the account string, an account-type payment method whose
`accountId` is the base currency RUB, and a purchase total whose currency
is likewise hard-coded to RUB. -/
def commissionQuoteBody (account : PhoneNumber) (amount : BigDecimal) : Json :=
  .obj
    [ ("account", .str (qiwiUserString account))
    , ("payment_method", .obj
        [ ("type", .str "Account")
        , ("accountId", serializeQiwiCurrency Currency.RUB) ])
    , ("purchaseTotals", .obj
        [ ("total", .obj
            [ ("amount", .num amount.val)
            , ("currency", serializeQiwiCurrency Currency.RUB) ]) ]) ]

/-- The full request issued by `Client::commission_quote` (lib.rs lines
98-125): POST to the provider-scoped endpoint with no query parameters. -/
def commissionQuoteRequest (provider : Nat) (account : PhoneNumber)
    (amount : BigDecimal) : ApiRequest :=
  { endpoint := commissionQuoteEndpoint provider
    method := .POST
    params := []
    body := some (commissionQuoteBody account amount) }

/-- How `Client::commission_quote` turns the decoded envelope into its
result (lib.rs lines 126-129): unwrap, then project
`.qw_commission.amount`. -/
def commissionQuoteResult (r : Rsp CommissionQuote) : Except ClientError BigDecimal :=
  r.into_result.map (·.qw_commission.amount)

/-- `TransferDirection` (models.rs lines 248-258). -/
inductive TransferDirection where
  | Qiwi (to_phone : PhoneNumber) (to_currency : Currency)
  | Cellular (carrier : Nat) (to_phone : PhoneNumber)

/-- Direction resolution in `Client::transfer` (lib.rs lines 139-147): the
wallet-to-wallet direction maps to provider 99 with the caller-chosen
currency; the cellular direction maps to the carrier code with RUB. -/
def resolveDirection : TransferDirection → Nat × Currency × PhoneNumber
  | .Qiwi to_phone to_currency => (99, to_currency, to_phone)
  | .Cellular carrier to_phone => (carrier, Currency.RUB, to_phone)

/-- The endpoint of `Client::transfer` (lib.rs line 149), scoped by the
resolved provider code. -/
def transferEndpoint (d : TransferDirection) : String :=
  "sinap/api/v2/terms/" ++ toString (resolveDirection d).1 ++ "/payments"

/-- The idempotency id generated when the caller supplies none (lib.rs
line 158): `Utc::now().timestamp()` — the Unix time in whole seconds —
converted to `u64` and multiplied by 1000; `u64` multiplication wraps
modulo 2^64. -/
def transferGeneratedId (nowSec : Nat) : Nat :=
  (nowSec * 1000) % 2 ^ 64

/-- The id actually placed in the request (lib.rs line 158):
`id.unwrap_or(...)`. -/
def transferIdValue (oid : Option Nat) (nowSec : Nat) : Nat :=
  oid.getD (transferGeneratedId nowSec)

/-- The id generation the spec describes, for comparison: "derived from
the current timestamp in milliseconds multiplied by 1000". -/
def claimedTransferGeneratedId (nowMillis : Nat) : Nat :=
  nowMillis * 1000

/-- The JSON body POSTed by `Client::transfer` (lib.rs lines 157-171):
the id as a string, the sum in the resolved currency, an account-type
payment method in RUB, the target account string, and the comment. -/
def transferBody (oid : Option Nat) (nowSec : Nat) (amount : BigDecimal)
    (direction : TransferDirection) (comment : String) : Json :=
  let r := resolveDirection direction
  .obj
    [ ("id", .str (toString (transferIdValue oid nowSec)))
    , ("sum", .obj
        [ ("amount", .num amount.val)
        , ("currency", serializeQiwiCurrency r.2.1) ])
    , ("paymentMethod", .obj
        [ ("type", .str "Account")
        , ("accountId", serializeQiwiCurrency Currency.RUB) ])
    , ("fields", .obj [("account", serializeQiwiUser r.2.2)])
    , ("comment", .str comment) ]

/-- The full request issued by `Client::transfer` (lib.rs lines 149-175). -/
def transferRequest (oid : Option Nat) (nowSec : Nat) (amount : BigDecimal)
    (direction : TransferDirection) (comment : String) : ApiRequest :=
  { endpoint := transferEndpoint direction
    method := .POST
    params := []
    body := some (transferBody oid nowSec amount direction comment) }

/-- Whether a status code makes reqwest's `error_for_status_ref` report an
error (transport.rs line 82): precisely the client-error (4xx) and
server-error (5xx) ranges. -/
def statusHasError (s : Nat) : Bool :=
  400 ≤ s && s ≤ 599

/-- Stand-in for the display text of the reqwest status error interpolated
into the message at transport.rs line 89; its exact wording is the HTTP
library's and does not matter to the claims, which concern the body. -/
def statusErrorText (s : Nat) : String :=
  "HTTP status " ++ toString s

/-- The tail of `RemoteCaller::call` (transport.rs lines 80-93): the body
text is read first; if the status was a client or server error the call
fails with a transport error whose message appends the captured body after
`with data: `, otherwise the body text is returned. -/
def remoteCallResult (status : Nat) (body : String) : Except ClientError String :=
  if statusHasError status then
    .error (.transportError
      ("Received error " ++ statusErrorText status ++ " with data: " ++ body))
  else .ok body

/-- A helper fact: when a value has no `errorCode` field at all, the error
variant of the envelope cannot match. -/
theorem errorCodeStr_eq_none_of_not_hasField (j : Json)
    (h : j.hasField "errorCode" = false) : errorCodeStr j = none := by
  unfold errorCodeStr
  unfold Json.hasField at h
  cases hf : j.field "errorCode" with
  | none => simp
  | some v => rw [hf] at h; simp [Option.isSome] at h

/-- C1. Envelope decoding is total and deterministic over the tagged
union: any JSON object carrying a string `errorCode` field decodes to the
`Error` variant with that code, no matter what the payload decoder would
accept (the error variant is attempted first); and any JSON value with no
`errorCode` field that the payload decoder accepts decodes to the `OK`
variant carrying the parsed payload. -/
theorem envelope_decode_total_deterministic {T : Type}
    (decodeT : Json → Option T) (j : Json) :
    (∀ code, errorCodeStr j = some code →
      decodeRsp decodeT j = some (Rsp.Error code))
    ∧ (j.hasField "errorCode" = false →
      ∀ t, decodeT j = some t → decodeRsp decodeT j = some (Rsp.OK t)) := by
  constructor
  · intro code hcode
    unfold decodeRsp
    rw [hcode]
  · intro hnof t ht
    unfold decodeRsp
    rw [errorCodeStr_eq_none_of_not_hasField j hnof, ht]
    rfl

/-- Witness for C1 at concrete inputs: an object with both an `errorCode`
and extra data decodes to the error variant even though the payload
decoder accepts it, and a plain value with no `errorCode` decodes to `OK`. -/
theorem envelope_decode_total_deterministic_witness :
    decodeRsp decodeAnythingAsZero
        (Json.obj [("errorCode", Json.str "X"), ("n", Json.num 3)])
      = some (Rsp.Error "X")
    ∧ decodeRsp decodeAnythingAsZero (Json.num 3) = some (Rsp.OK 0) := by
  constructor
  · exact (envelope_decode_total_deterministic decodeAnythingAsZero
      (Json.obj [("errorCode", Json.str "X"), ("n", Json.num 3)])).1 "X" rfl
  · exact (envelope_decode_total_deterministic decodeAnythingAsZero
      (Json.num 3)).2 rfl 0 rfl

/-- A helper lemma about the pagination loop: against a transport serving
a list of pages whose non-final pages all carry a full cursor pair and
whose final page carries none, the loop (started from any pending cursor)
yields the concatenation of all entries and issues exactly one request per
page. -/
theorem historyRun_complete {α : Type} (user : String)
    (cursor : Option (String × Nat)) (mid : List (PaymentHistoryData α))
    (lastPage : PaymentHistoryData α)
    (hmid : ∀ p ∈ mid, (nextCursor p).isSome = true)
    (hlast : nextCursor lastPage = none) :
    (historyRun user cursor (mid ++ [lastPage])).2
        = ((mid ++ [lastPage]).map (·.data)).flatten
    ∧ (historyRun user cursor (mid ++ [lastPage])).1.length
        = mid.length + 1 := by
  induction mid generalizing cursor with
  | nil =>
    simp [historyRun, hlast]
  | cons p rest ih =>
    have hp : (nextCursor p).isSome = true := hmid p (List.mem_cons_self p rest)
    obtain ⟨c, hc⟩ := Option.isSome_iff_exists.mp hp
    have ihc := ih (some c) (fun q hq => hmid q (List.mem_cons_of_mem p hq))
    simp only [List.cons_append, historyRun, hc]
    simp [ihc.1, ihc.2]

/-- C2. Pagination termination: when the transport serves a sequence of
pages whose final page carries neither cursor field (each earlier page
carrying the full cursor pair that leads to its successor), the stream
produced by `payment_history` yields exactly the concatenation of the
pages' entries in the order received, its length is the sum of the
per-page entry counts, and exactly one request per page is issued — none
after the final page. -/
theorem payment_history_termination {α : Type} (user : String)
    (mid : List (PaymentHistoryData α)) (lastPage : PaymentHistoryData α)
    (hmid : ∀ p ∈ mid, (nextCursor p).isSome = true)
    (hdate : lastPage.next_txn_date = none)
    (_hid : lastPage.next_txn_id = none) :
    (historyRun user none (mid ++ [lastPage])).2
        = ((mid ++ [lastPage]).map (·.data)).flatten
    ∧ (historyRun user none (mid ++ [lastPage])).2.length
        = ((mid ++ [lastPage]).map (·.data.length)).sum
    ∧ (historyRun user none (mid ++ [lastPage])).1.length
        = mid.length + 1 := by
  have hlast : nextCursor lastPage = none := by
    unfold nextCursor
    rw [hdate]
  have h := historyRun_complete user none mid lastPage hmid hlast
  refine ⟨h.1, ?_, h.2⟩
  rw [h.1, List.length_flatten]
  simp [Function.comp_def]

/-- Witness for C2: two concrete pages — the first with entries `[1, 2]`
and a full cursor, the last with entry `[3]` and no cursor — produce the
entry stream `[1, 2, 3]` of length 3 and exactly two page requests. -/
theorem payment_history_termination_witness :
    (historyRun "79161112233" none
        ([⟨[1, 2], some 7, some "2020-01-01"⟩]
          ++ [(⟨[3], none, none⟩ : PaymentHistoryData Nat)])).2 = [1, 2, 3]
    ∧ (historyRun "79161112233" none
        ([⟨[1, 2], some 7, some "2020-01-01"⟩]
          ++ [(⟨[3], none, none⟩ : PaymentHistoryData Nat)])).1.length = 2 := by
  have h := payment_history_termination "79161112233"
    [⟨[1, 2], some 7, some "2020-01-01"⟩]
    (⟨[3], none, none⟩ : PaymentHistoryData Nat)
    (by intro p hp
        rw [List.mem_singleton] at hp
        subst hp
        rfl)
    rfl rfl
  exact ⟨by rw [h.1]; rfl, h.2.2⟩

/-- C3. Pagination continuation: when the first page returns the cursor
pair `(D, I)`, the run issues a second request whose query parameters are
exactly `rows=50`, `nextTxnDate=D` and `nextTxnId=I` (the first request
carrying exactly `rows=50`), at the same per-user history endpoint. -/
theorem payment_history_continuation {α : Type} (user D : String) (I : Nat)
    (p1 p2 : PaymentHistoryData α)
    (hd : p1.next_txn_date = some D) (hi : p1.next_txn_id = some I) :
    (historyRun user none [p1, p2]).1
        = [mkHistoryRequest user none, mkHistoryRequest user (some (D, I))]
    ∧ (mkHistoryRequest user none).params = [("rows", "50")]
    ∧ (mkHistoryRequest user (some (D, I))).params
        = [("rows", "50"), ("nextTxnDate", D), ("nextTxnId", toString I)]
    ∧ (mkHistoryRequest user (some (D, I))).endpoint
        = "payment-history/v2/persons/" ++ user ++ "/payments" := by
  have hc : nextCursor p1 = some (D, I) := by
    unfold nextCursor
    rw [hd, hi]
  refine ⟨?_, ?_, ?_, rfl⟩
  · cases h2 : nextCursor p2 with
    | none => simp [historyRun, hc, h2]
    | some c => simp [historyRun, hc, h2]
  · show ("rows", toString 50) :: _ = _
    rfl
  · show ("rows", toString 50) :: _ = _
    rfl

/-- Witness for C3: a concrete first page with cursor
`("2020-02-02", 41)` makes the second request carry exactly
`rows=50, nextTxnDate=2020-02-02, nextTxnId=41`. -/
theorem payment_history_continuation_witness :
    (historyRun "79161112233" none
        [⟨[5], some 41, some "2020-02-02"⟩,
         (⟨[6], none, none⟩ : PaymentHistoryData Nat)]).1
      = [mkHistoryRequest "79161112233" none,
         mkHistoryRequest "79161112233" (some ("2020-02-02", 41))]
    ∧ (mkHistoryRequest "79161112233" (some ("2020-02-02", 41))).params
      = [("rows", "50"), ("nextTxnDate", "2020-02-02"), ("nextTxnId", "41")] := by
  have h := payment_history_continuation "79161112233" "2020-02-02" 41
    (⟨[5], some 41, some "2020-02-02"⟩ : PaymentHistoryData Nat)
    (⟨[6], none, none⟩ : PaymentHistoryData Nat) rfl rfl
  exact ⟨h.1, h.2.2.1⟩

/-- C10. Implicit cursor-pair edge case: when a page carries exactly one
of the two cursor fields, the loop treats it as the last page — it yields
that page's entries, terminates, and issues no further request, whatever
pages the transport could still serve. -/
theorem payment_history_partial_cursor_stops {α : Type} (user : String)
    (p : PaymentHistoryData α) (rest : List (PaymentHistoryData α))
    (h : (p.next_txn_date = none ∧ ∃ i, p.next_txn_id = some i)
       ∨ (∃ d, p.next_txn_date = some d) ∧ p.next_txn_id = none) :
    historyRun user none (p :: rest) = ([mkHistoryRequest user none], p.data) := by
  have hc : nextCursor p = none := by
    unfold nextCursor
    rcases h with ⟨hd, _, hi⟩ | ⟨⟨d, hd⟩, hi⟩
    · rw [hd]
    · rw [hd, hi]
  simp [historyRun, hc]

/-- Witness for C10: a concrete page carrying only `nextTxnId` (no
`nextTxnDate`) stops the iteration after one request, even though the
transport holds a further page. -/
theorem payment_history_partial_cursor_stops_witness :
    historyRun "79161112233" none
        [(⟨[8], some 77, none⟩ : PaymentHistoryData Nat), ⟨[9], none, none⟩]
      = ([mkHistoryRequest "79161112233" none], [8]) := by
  exact payment_history_partial_cursor_stops "79161112233"
    (⟨[8], some 77, none⟩ : PaymentHistoryData Nat) [⟨[9], none, none⟩]
    (Or.inl ⟨rfl, 77, rfl⟩)

/-- C5. Envelope unwrap: `into_result` maps the error variant to a domain
failure whose message is `qiwi error: {code}` — the remote code appears in
it verbatim, as a suffix — and maps the success variant to its payload
unchanged; in particular a transport response
`{"errorCode": "LIMIT_EXCEEDED"}` makes `commission_info` fail with the
domain error `qiwi error: LIMIT_EXCEEDED` (containing the code), not with
a decode error. -/
theorem into_result_error_propagation {T : Type} (e : String) (v : T) :
    Rsp.into_result (Rsp.Error e : Rsp T)
        = Except.error (ClientError.domainError ("qiwi error: " ++ e))
    ∧ List.IsSuffix e.data ("qiwi error: " ++ e).data
    ∧ Rsp.into_result (Rsp.OK v) = Except.ok v
    ∧ commission_info_result (Json.obj [("errorCode", Json.str "LIMIT_EXCEEDED")])
        = Except.error (ClientError.domainError "qiwi error: LIMIT_EXCEEDED")
    ∧ List.IsSuffix "LIMIT_EXCEEDED".data "qiwi error: LIMIT_EXCEEDED".data := by
  refine ⟨rfl, ⟨"qiwi error: ".data, (String.data_append _ _).symm⟩, rfl, rfl, ?_⟩
  decide

/-- C4 counterexample: at the instant one second after the epoch the
timestamp is 1000 milliseconds, so the claim's "timestamp in milliseconds
multiplied by 1000" gives 1000000, while the code (seconds multiplied by
1000) places id 1000 in the request. -/
theorem transfer_id_claim_counterexample :
    transferIdValue none 1 = 1000
    ∧ claimedTransferGeneratedId 1000 = 1000000
    ∧ (1000 : Nat) ≠ 1000000 := by
  refine ⟨?_, rfl, by decide⟩
  rfl

/-- C4 amended: whenever `transfer` is called with no id, the id field
placed in the request body is the current Unix timestamp in seconds
multiplied by 1000 (as a `u64`, hence modulo 2^64), rendered as a string;
when an id is supplied it is used instead. -/
theorem transfer_id_default (nowSec v : Nat) (amount : BigDecimal)
    (direction : TransferDirection) (comment : String) :
    Json.field (transferBody none nowSec amount direction comment) "id"
        = some (.str (toString ((nowSec * 1000) % 2 ^ 64)))
    ∧ Json.field (transferBody (some v) nowSec amount direction comment) "id"
        = some (.str (toString v)) := by
  exact ⟨rfl, rfl⟩

/-- C6 counterexample: status 304 is not a 2xx status, yet
`error_for_status` (which reqwest's `RemoteCaller::call` consults) flags
only 4xx and 5xx, so the call succeeds and returns the body instead of
failing with a transport error. -/
theorem http_failure_claim_counterexample :
    ¬ (200 ≤ 304 ∧ 304 < 300)
    ∧ remoteCallResult 304 "Server error" = Except.ok "Server error" := by
  exact ⟨by decide, rfl⟩

/-- C6 amended: for every call through the concrete transport in which
the server returns a 4xx or 5xx status, the call fails with a transport
error, and the response body text is still captured and included in the
error message (it is its suffix, after `with data: `). -/
theorem http_failure_surfacing (status : Nat) (body : String)
    (h : 400 ≤ status ∧ status ≤ 599) :
    remoteCallResult status body
        = Except.error (ClientError.transportError
            ("Received error " ++ statusErrorText status ++ " with data: " ++ body))
    ∧ ∀ msg, remoteCallResult status body
          = Except.error (ClientError.transportError msg) →
        List.IsSuffix body.data msg.data := by
  have hb : statusHasError status = true := by
    unfold statusHasError
    rw [Bool.and_eq_true, decide_eq_true_eq, decide_eq_true_eq]
    exact h
  have hres : remoteCallResult status body
      = Except.error (ClientError.transportError
          ("Received error " ++ statusErrorText status ++ " with data: " ++ body)) := by
    unfold remoteCallResult
    rw [hb]
    rfl
  refine ⟨hres, ?_⟩
  intro msg hmsg
  rw [hres] at hmsg
  cases hmsg
  exact ⟨("Received error " ++ statusErrorText status ++ " with data: ").data,
    (String.data_append _ _).symm⟩

/-- Witness for C6: a 500 status with body `Server error` yields a
transport error whose message ends with that body text. -/
theorem http_failure_surfacing_witness :
    remoteCallResult 500 "Server error"
        = Except.error (ClientError.transportError
            ("Received error " ++ statusErrorText 500 ++ " with data: " ++ "Server error"))
    ∧ List.IsSuffix "Server error".data
        ("Received error HTTP status 500 with data: Server error").data := by
  have h := http_failure_surfacing 500 "Server error" (by decide)
  refine ⟨h.1, ?_⟩
  have h2 := h.2 ("Received error " ++ statusErrorText 500 ++ " with data: " ++ "Server error") h.1
  exact h2

/-- C7. Transfer direction resolution: the wallet-to-wallet direction
resolves to provider 99 with the caller-specified currency and target
phone, the cellular direction resolves to the carrier's numeric provider
code with the fixed base currency RUB; the request is POSTed to the
endpoint scoped by the resolved provider code, its `sum.currency` is the
resolved currency's numeric code and its `fields.account` the target
account string. -/
theorem transfer_direction_resolution (p : PhoneNumber) (c : Currency)
    (k : Nat) (oid : Option Nat) (nowSec : Nat) (amount : BigDecimal)
    (comment : String) :
    resolveDirection (.Qiwi p c) = (99, c, p)
    ∧ resolveDirection (.Cellular k p) = (k, Currency.RUB, p)
    ∧ (transferRequest oid nowSec amount (.Qiwi p c) comment).endpoint
        = "sinap/api/v2/terms/99/payments"
    ∧ (transferRequest oid nowSec amount (.Cellular k p) comment).endpoint
        = "sinap/api/v2/terms/" ++ toString k ++ "/payments"
    ∧ (transferRequest oid nowSec amount (.Qiwi p c) comment).method = .POST
    ∧ Json.fieldPath (transferBody oid nowSec amount (.Qiwi p c) comment)
        ["sum", "currency"] = some (.str c.number)
    ∧ Json.fieldPath (transferBody oid nowSec amount (.Cellular k p) comment)
        ["sum", "currency"] = some (.str "643")
    ∧ Json.fieldPath (transferBody oid nowSec amount (.Qiwi p c) comment)
        ["fields", "account"] = some (.str (qiwiUserString p))
    ∧ Json.fieldPath (transferBody oid nowSec amount (.Cellular k p) comment)
        ["fields", "account"] = some (.str (qiwiUserString p)) := by
  refine ⟨rfl, rfl, ?_, rfl, rfl, rfl, rfl, rfl, rfl⟩
  show "sinap/api/v2/terms/" ++ toString (99 : Nat) ++ "/payments" = _
  decide

/-- C8. Fixed quote currency: for every call to `commission_quote`, the
POSTed JSON body describes an account-type payment method and a purchase
total whose currency fields are always the base currency RUB (numeric
code 643), independent of every caller-supplied input, the amount is
passed through, and the operation returns the quoted commission amount
`qw_commission.amount` extracted from the response envelope. -/
theorem commission_quote_fixed_currency (provider : Nat)
    (account : PhoneNumber) (amount : BigDecimal) (q : CommissionQuote) :
    (commissionQuoteRequest provider account amount).endpoint
        = "sinap/providers/" ++ toString provider ++ "/onlineCommission"
    ∧ (commissionQuoteRequest provider account amount).method = .POST
    ∧ Json.fieldPath (commissionQuoteBody account amount)
        ["payment_method", "type"] = some (.str "Account")
    ∧ Json.fieldPath (commissionQuoteBody account amount)
        ["payment_method", "accountId"] = some (.str "643")
    ∧ Json.fieldPath (commissionQuoteBody account amount)
        ["purchaseTotals", "total", "currency"] = some (.str "643")
    ∧ Json.fieldPath (commissionQuoteBody account amount)
        ["purchaseTotals", "total", "amount"] = some (.num amount.val)
    ∧ Json.fieldPath (commissionQuoteBody account amount)
        ["account"] = some (.str (qiwiUserString account))
    ∧ commissionQuoteResult (Rsp.OK q) = Except.ok q.qw_commission.amount := by
  exact ⟨rfl, rfl, rfl, rfl, rfl, rfl, rfl, rfl⟩

/-- A helper fact: the character for a single decimal digit is a digit
character. -/
theorem digitChar_isDigit (n : Nat) (h : n < 10) :
    (Nat.digitChar n).isDigit = true := by
  interval_cases n <;> decide

/-- A helper fact: the decimal printing loop only ever emits digit
characters onto an accumulator of digit characters. -/
theorem toDigitsCore_isDigit (fuel : Nat) :
    ∀ (n : Nat) (acc : List Char), (∀ c ∈ acc, c.isDigit = true) →
      ∀ c ∈ Nat.toDigitsCore 10 fuel n acc, c.isDigit = true := by
  induction fuel with
  | zero =>
    intro n acc hacc c hc
    simp only [Nat.toDigitsCore] at hc
    exact hacc c hc
  | succ f ih =>
    intro n acc hacc c hc
    simp only [Nat.toDigitsCore] at hc
    have hconsP : ∀ d ∈ Nat.digitChar (n % 10) :: acc, d.isDigit = true := by
      intro d hd
      rcases List.mem_cons.mp hd with h1 | h2
      · rw [h1]
        exact digitChar_isDigit (n % 10) (Nat.mod_lt n (by decide))
      · exact hacc d h2
    by_cases h0 : n / 10 = 0
    · rw [if_pos h0] at hc
      exact hconsP c hc
    · rw [if_neg h0] at hc
      exact ih (n / 10) (Nat.digitChar (n % 10) :: acc) hconsP c hc

/-- A helper fact: the decimal rendering of a natural number consists of
digit characters only. -/
theorem toString_nat_isDigit (n : Nat) :
    ∀ c ∈ (toString n).data, c.isDigit = true := by
  intro c hc
  have hdata : (toString n).data = Nat.toDigits 10 n := rfl
  rw [hdata, Nat.toDigits] at hc
  exact toDigitsCore_isDigit (n + 1) n [] (by intro d hd; cases hd) c hc

/-- C9. User identity normalization: the wallet account string produced
for a phone number is the country calling code immediately concatenated
with the national significant number; it contains only digit characters —
no symbols — and the serializer emits exactly that string (the value is
plain immutable data, never modified after construction). -/
theorem qiwi_user_normalization (p : PhoneNumber) :
    qiwiUserString p = toString p.code ++ toString p.national
    ∧ serializeQiwiUser p = Json.str (qiwiUserString p)
    ∧ ∀ c ∈ (qiwiUserString p).data, c.isDigit = true := by
  refine ⟨rfl, rfl, ?_⟩
  intro c hc
  have hdata : (qiwiUserString p).data
      = (toString p.code).data ++ (toString p.national).data :=
    String.data_append _ _
  rw [hdata, List.mem_append] at hc
  rcases hc with h | h
  · exact toString_nat_isDigit p.code c h
  · exact toString_nat_isDigit p.national c h

/-- Witness for C9: the phone number +7 916 111-22-33 renders as the
account string `79161112233`, and the theorem certifies its characters
are digits. -/
theorem qiwi_user_normalization_witness :
    qiwiUserString ⟨7, 9161112233⟩ = "79161112233"
    ∧ Char.isDigit '7' = true := by
  refine ⟨by decide, ?_⟩
  exact (qiwi_user_normalization ⟨7, 9161112233⟩).2.2 '7' (by decide)
